import Mathlib

/-!
Verification of the NVTabular example notebooks.

The repository holds two Jupyter notebooks: a CSV-to-Parquet conversion
script for the Criteo dataset (it builds a hand-written Dask task graph,
one conversion task per input day file feeding a single metadata-merge
task) and a Criteo preprocessing/training notebook.  This file embeds the
notebook code as pure Lean definitions.  External libraries (cudf, dask,
fsspec, rmm) are modelled by their observable interface: the tokenize
function, the glob result, the comparison key used for sorting and the
chunk stream of GPUFileIterator are parameters, while the data the
notebook itself assembles (task keys, task argument tuples, file paths,
rmm configuration records) is translated verbatim from the source cells.
-/

namespace NVT

/-- Python sep.join over a list of parts. -/
def sepJoin (sep : String) (parts : List String) : String :=
  String.intercalate sep parts

/-- Column dtypes assigned in Step 5 of the conversion notebook:
numpy int64 for the label and the continuous columns, the cudf
string-to-int "hex" reader dtype for the categorical columns. -/
inductive Dtype where
  | int64
  | hex
deriving DecidableEq

/-- cont_names = ["I1", ..., "I13"]. -/
def cont_names : List String := (List.range' 1 13).map (fun x => "I" ++ toString x)

/-- cat_names = ["C1", ..., "C26"]. -/
def cat_names : List String := (List.range' 1 26).map (fun x => "C" ++ toString x)

/-- cols = ["label"] + cont_names + cat_names. -/
def cols : List String := ["label"] ++ cont_names ++ cat_names

/-- The dtypes dict of Step 5, as an association list in insertion order. -/
def dtypes : List (String × Dtype) :=
  [("label", Dtype.int64)]
    ++ cont_names.map (fun x => (x, Dtype.int64))
    ++ cat_names.map (fun x => (x, Dtype.hex))

/-- frac_size = 0.15 from Step 2. -/
def frac_size : ℚ := 15 / 100

/-- A key of the hand-built Dask task dictionary: either a tuple key
(name, i) naming one conversion task, or a plain string key. -/
inductive Key where
  | tup (s : String) (i : Nat)
  | str (s : String)
deriving DecidableEq

/-- A task bound in the hand-built dictionary: the callable together with
the argument tuple exactly as written in the Step 5 cell.  The fs object
is represented by its separator, the only field the tasks read. -/
inductive Task where
  | convertFile (path name out_dir : String) (fracSize : ℚ)
      (fsSep : String) (cs : List String) (dts : List (String × Dtype))
  | writeMetadata (mdKeys : List Key) (fsSep : String) (path : String)
deriving DecidableEq

/-- The keys a task mentions in its argument tuple; under Dask semantics
these are exactly the dependencies of the task.  A conversion task has
only literal arguments; the metadata-merge task lists the conversion
keys as its first argument. -/
def Task.deps : Task → List Key
  | Task.convertFile _ _ _ _ _ _ _ => []
  | Task.writeMetadata mdKeys _ _ => mdKeys

/-- The arguments the Step 5 cell passes to dask.base.tokenize:
(file_list, name_list, OUTPUT_PATH, frac_size, fs, cols, dtypes). -/
structure TokenizeArgs where
  file_list : List String
  name_list : List String
  out_path : String
  fracSize : ℚ
  fsSep : String
  cs : List String
  dts : List (String × Dtype)
deriving DecidableEq

/-- The task dictionary dsk of Step 5 as an ordered association list
(Python dicts preserve insertion order): one entry per element of
zip(file_list, name_list) under key (convert_file_name, i), then the
write-metadata entry whose first argument enumerates the conversion keys
for range(len(file_list)). -/
def buildDsk (token : String) (file_list name_list : List String)
    (out_path : String) (fracSize : ℚ) (fsSep : String)
    (cs : List String) (dts : List (String × Dtype)) : List (Key × Task) :=
  let convert_file_name := "convert_file-" ++ token
  let write_meta_name := "write-metadata-" ++ token
  ((file_list.zip name_list).enum.map
      (fun pr => (Key.tup convert_file_name pr.1,
        Task.convertFile pr.2.1 pr.2.2 out_path fracSize fsSep cs dts)))
    ++ [(Key.str write_meta_name,
        Task.writeMetadata
          ((List.range file_list.length).map (fun i => Key.tup convert_file_name i))
          fsSep out_path)]

/-- Step 5 as a whole: compute the token, build dsk, and wrap the graph in
a Delayed keyed on the write-metadata key.  The result records the
Delayed key and the task dictionary; tokenize is the external dask
hash, kept as a parameter. -/
def buildGraph (tokenize : TokenizeArgs → String) (a : TokenizeArgs) :
    Key × List (Key × Task) :=
  let token := tokenize a
  (Key.str ("write-metadata-" ++ token),
   buildDsk token a.file_list a.name_list a.out_path a.fracSize a.fsSep a.cs a.dts)

/-- Closed form of the conversion portion of the dictionary when name_list
matches file_list in length (as _analyze_paths guarantees). -/
theorem buildDsk_conv (token : String) (fl nl : List String) (op : String)
    (fr : ℚ) (sep : String) (cs : List String) (dts : List (String × Dtype))
    (h : nl.length = fl.length) :
    (fl.zip nl).enum.map
        (fun pr => (Key.tup ("convert_file-" ++ token) pr.1,
          Task.convertFile pr.2.1 pr.2.2 op fr sep cs dts))
      = (List.range fl.length).map (fun i =>
          (Key.tup ("convert_file-" ++ token) i,
           Task.convertFile (fl.getD i "") (nl.getD i "") op fr sep cs dts)) := by
  apply List.ext_getElem
  · simp [List.length_zip, h]
  · intro n h₁ h₂
    have hnf : n < fl.length := by
      simpa [List.length_zip, h] using h₁
    have hnn : n < nl.length := by simpa [h] using hnf
    simp only [List.getElem_map, List.getElem_enum, List.getElem_zip, List.getElem_range]
    rw [List.getD_eq_getElem fl "" hnf, List.getD_eq_getElem nl "" hnn]

/-- Closed form of the task dictionary when name_list matches file_list in
length: position i holds the conversion task for file i, and the final
entry is the metadata-merge task over all conversion keys. -/
theorem buildDsk_eq (token : String) (fl nl : List String) (op : String)
    (fr : ℚ) (sep : String) (cs : List String) (dts : List (String × Dtype))
    (h : nl.length = fl.length) :
    buildDsk token fl nl op fr sep cs dts =
      (List.range fl.length).map (fun i =>
        (Key.tup ("convert_file-" ++ token) i,
         Task.convertFile (fl.getD i "") (nl.getD i "") op fr sep cs dts))
      ++ [(Key.str ("write-metadata-" ++ token),
           Task.writeMetadata
             ((List.range fl.length).map (fun i => Key.tup ("convert_file-" ++ token) i))
             sep op)] := by
  simp only [buildDsk]
  rw [buildDsk_conv token fl nl op fr sep cs dts h]

/-- C1: for a selected input file list of length n (with the matching name
list produced by _analyze_paths), the Step 5 cell builds a task dictionary
holding exactly one conversion task per input file — keys
(convert_file-token, i) for i = 0..n-1, each bound to _convert_file on
that file's path and name — followed by exactly one metadata-merge task,
keyed write-metadata-token, whose first argument is the list of all n
conversion keys. -/
theorem conversion_graph_one_task_per_file
    (tokenize : TokenizeArgs → String) (a : TokenizeArgs)
    (h : a.name_list.length = a.file_list.length) :
    (buildGraph tokenize a).2 =
      (List.range a.file_list.length).map (fun i =>
        (Key.tup ("convert_file-" ++ tokenize a) i,
         Task.convertFile (a.file_list.getD i "") (a.name_list.getD i "")
           a.out_path a.fracSize a.fsSep a.cs a.dts))
      ++ [(Key.str ("write-metadata-" ++ tokenize a),
           Task.writeMetadata
             ((List.range a.file_list.length).map
               (fun i => Key.tup ("convert_file-" ++ tokenize a) i))
             a.fsSep a.out_path)] := by
  simp only [buildGraph]
  exact buildDsk_eq (tokenize a) a.file_list a.name_list a.out_path
    a.fracSize a.fsSep a.cs a.dts h

/-- Witness for C1 at a concrete two-file input. -/
theorem conversion_graph_one_task_per_file_witness :
    (buildGraph (fun _ => "t")
        ⟨["in/day_0", "in/day_1"], ["day_0", "day_1"], "out", frac_size, "/",
         ["label"], [("label", Dtype.int64)]⟩).2 =
      (List.range 2).map (fun i =>
        (Key.tup ("convert_file-" ++ "t") i,
         Task.convertFile (["in/day_0", "in/day_1"].getD i "")
           (["day_0", "day_1"].getD i "") "out" frac_size "/"
           ["label"] [("label", Dtype.int64)]))
      ++ [(Key.str ("write-metadata-" ++ "t"),
           Task.writeMetadata
             ((List.range 2).map (fun i => Key.tup ("convert_file-" ++ "t") i))
             "/" "out")] :=
  conversion_graph_one_task_per_file (fun _ => "t")
    ⟨["in/day_0", "in/day_1"], ["day_0", "day_1"], "out", frac_size, "/",
     ["label"], [("label", Dtype.int64)]⟩ rfl

/-- C3: the constructed graph is a depth-two fan-in DAG: the Delayed handed
to compute is keyed on the write-metadata key; the dictionary keys are the
n conversion keys followed by that single sink key; every conversion task
has no dependencies; the metadata-merge task depends on exactly the n
conversion keys; and no task in the dictionary depends on the sink, so
the sink is unique. -/
theorem conversion_graph_depth_two
    (tokenize : TokenizeArgs → String) (a : TokenizeArgs)
    (h : a.name_list.length = a.file_list.length) :
    (buildGraph tokenize a).1 = Key.str ("write-metadata-" ++ tokenize a)
    ∧ ((buildGraph tokenize a).2.map Prod.fst =
        (List.range a.file_list.length).map
            (fun i => Key.tup ("convert_file-" ++ tokenize a) i)
          ++ [(buildGraph tokenize a).1])
    ∧ (∀ kt ∈ (buildGraph tokenize a).2,
        kt.1 ≠ (buildGraph tokenize a).1 → Task.deps kt.2 = [])
    ∧ (∀ kt ∈ (buildGraph tokenize a).2,
        kt.1 = (buildGraph tokenize a).1 →
          Task.deps kt.2 = (List.range a.file_list.length).map
            (fun i => Key.tup ("convert_file-" ++ tokenize a) i))
    ∧ (∀ kt ∈ (buildGraph tokenize a).2, (buildGraph tokenize a).1 ∉ Task.deps kt.2) := by
  have hd := buildDsk_eq (tokenize a) a.file_list a.name_list a.out_path
    a.fracSize a.fsSep a.cs a.dts h
  have h1 : (buildGraph tokenize a).1 = Key.str ("write-metadata-" ++ tokenize a) := rfl
  have h2 : (buildGraph tokenize a).2 =
      (List.range a.file_list.length).map (fun i =>
        (Key.tup ("convert_file-" ++ tokenize a) i,
         Task.convertFile (a.file_list.getD i "") (a.name_list.getD i "")
           a.out_path a.fracSize a.fsSep a.cs a.dts))
      ++ [(Key.str ("write-metadata-" ++ tokenize a),
           Task.writeMetadata
             ((List.range a.file_list.length).map
               (fun i => Key.tup ("convert_file-" ++ tokenize a) i))
             a.fsSep a.out_path)] := hd
  refine ⟨h1, ?_, ?_, ?_, ?_⟩
  · rw [h2, h1]
    simp [List.map_append, List.map_map]
  · intro kt hkt hne
    rw [h2] at hkt
    rw [h1] at hne
    rcases List.mem_append.1 hkt with hm | hm
    · rcases List.mem_map.1 hm with ⟨i, _, rfl⟩
      rfl
    · rcases List.mem_singleton.1 hm with rfl
      exact absurd rfl hne
  · intro kt hkt heq
    rw [h2] at hkt
    rw [h1] at heq
    rcases List.mem_append.1 hkt with hm | hm
    · rcases List.mem_map.1 hm with ⟨i, _, rfl⟩
      exact absurd heq (by simp)
    · rcases List.mem_singleton.1 hm with rfl
      rfl
  · intro kt hkt
    rw [h2] at hkt
    rw [h1]
    rcases List.mem_append.1 hkt with hm | hm
    · rcases List.mem_map.1 hm with ⟨i, _, rfl⟩
      simp [Task.deps]
    · rcases List.mem_singleton.1 hm with rfl
      simp [Task.deps]

/-- Witness for C3 at a concrete one-file input. -/
theorem conversion_graph_depth_two_witness :
    (buildGraph (fun _ => "w")
        ⟨["in/day_0"], ["day_0"], "out", frac_size, "/", [], []⟩).1 =
        Key.str ("write-metadata-" ++ "w")
    ∧ ((buildGraph (fun _ => "w")
        ⟨["in/day_0"], ["day_0"], "out", frac_size, "/", [], []⟩).2.map Prod.fst =
        (List.range 1).map (fun i => Key.tup ("convert_file-" ++ "w") i)
          ++ [(buildGraph (fun _ => "w")
              ⟨["in/day_0"], ["day_0"], "out", frac_size, "/", [], []⟩).1])
    ∧ (∀ kt ∈ (buildGraph (fun _ => "w")
          ⟨["in/day_0"], ["day_0"], "out", frac_size, "/", [], []⟩).2,
        kt.1 ≠ (buildGraph (fun _ => "w")
          ⟨["in/day_0"], ["day_0"], "out", frac_size, "/", [], []⟩).1 →
          Task.deps kt.2 = [])
    ∧ (∀ kt ∈ (buildGraph (fun _ => "w")
          ⟨["in/day_0"], ["day_0"], "out", frac_size, "/", [], []⟩).2,
        kt.1 = (buildGraph (fun _ => "w")
          ⟨["in/day_0"], ["day_0"], "out", frac_size, "/", [], []⟩).1 →
          Task.deps kt.2 = (List.range 1).map
            (fun i => Key.tup ("convert_file-" ++ "w") i))
    ∧ (∀ kt ∈ (buildGraph (fun _ => "w")
          ⟨["in/day_0"], ["day_0"], "out", frac_size, "/", [], []⟩).2,
        (buildGraph (fun _ => "w")
          ⟨["in/day_0"], ["day_0"], "out", frac_size, "/", [], []⟩).1 ∉ Task.deps kt.2) :=
  conversion_graph_depth_two (fun _ => "w")
    ⟨["in/day_0"], ["day_0"], "out", frac_size, "/", [], []⟩ rfl

/-- C8: task-graph construction is deterministic — two runs over equal
file lists, name lists, output path, frac_size, filesystem, cols and
dtypes, whose tokenize calls agree on those inputs, produce the identical
Delayed key and task dictionary. -/
theorem graph_construction_deterministic
    (t₁ t₂ : TokenizeArgs → String) (a₁ a₂ : TokenizeArgs)
    (ha : a₁ = a₂) (ht : t₁ a₁ = t₂ a₂) :
    buildGraph t₁ a₁ = buildGraph t₂ a₂ := by
  subst ha
  simp only [buildGraph, ht]

/-- Witness for C8: two syntactically different tokenize functions that
agree on the input yield the same graph. -/
theorem graph_construction_deterministic_witness :
    buildGraph (fun _ => "tok")
        ⟨["in/day_0"], ["day_0"], "o", frac_size, "/", [], []⟩ =
      buildGraph (fun _ => String.append "to" "k")
        ⟨["in/day_0"], ["day_0"], "o", frac_size, "/", [], []⟩ :=
  graph_construction_deterministic _ _ _ _ rfl rfl

/-- Python list slicing l[:d] for an integer bound d: a nonnegative bound
keeps the first d elements, a negative bound drops the last -d. -/
def pySliceTo {α : Type _} (d : Int) (l : List α) : List α :=
  if 0 ≤ d then l.take d.toNat else l.take (l.length - (-d).toNat)

/-- Model of the fsspec call fs.glob(fs.sep.join([INPUT_PATH, "day_*"])):
among the entry names of the input directory, those beginning with
"day_", each rendered as the full path INPUT_PATH + sep + name. -/
def globDays (inputPath fsSep : String) (dirNames : List String) : List String :=
  (dirNames.filter (fun n => "day_".isPrefixOf n)).map
    (fun n => inputPath ++ fsSep ++ n)

/-- The file-list selection of Step 5: glob the day files under
INPUT_PATH, drop entries ending in "parquet", sort by the natural sort
key (the comparison le induced by dask.utils.natural_sort_key is kept
abstract), then slice by Python truthiness:
file_list[:max_day] if max_day else file_list. -/
def selectFileList (inputPath fsSep : String) (dirNames : List String)
    (le : String → String → Bool) (max_day : Option Int) : List String :=
  let fl := (globDays inputPath fsSep dirNames).filter
    (fun x => !(x.endsWith "parquet"))
  let fl := fl.mergeSort le
  match max_day with
  | none => fl
  | some d => if d = 0 then fl else pySliceTo d fl

/-- C4: the processed file list consists of exactly the day_ entries of
INPUT_PATH that do not end in "parquet" (a permutation of the filtered
glob), ordered by the sort comparison; a positive max_day truncates the
list to its first max_day entries, while max_day = None and max_day = 0
both keep the full list — in particular max_day = 0 is falsy and does
not yield an empty list. -/
theorem file_list_selection (inputPath fsSep : String) (dirNames : List String)
    (le : String → String → Bool)
    (htrans : ∀ a b c, le a b = true → le b c = true → le a c = true)
    (htotal : ∀ a b, (le a b || le b a) = true) :
    ((selectFileList inputPath fsSep dirNames le none).Perm
        ((globDays inputPath fsSep dirNames).filter
          (fun x => !(x.endsWith "parquet"))))
    ∧ List.Pairwise (fun a b => le a b = true)
        (selectFileList inputPath fsSep dirNames le none)
    ∧ (∀ x, x ∈ globDays inputPath fsSep dirNames ↔
        ∃ n ∈ dirNames, "day_".isPrefixOf n ∧ x = inputPath ++ fsSep ++ n)
    ∧ (∀ d : Int, 0 < d →
        selectFileList inputPath fsSep dirNames le (some d)
          = (selectFileList inputPath fsSep dirNames le none).take d.toNat)
    ∧ selectFileList inputPath fsSep dirNames le (some 0)
        = selectFileList inputPath fsSep dirNames le none := by
  refine ⟨?_, ?_, ?_, ?_, ?_⟩
  · exact List.mergeSort_perm _ le
  · exact List.sorted_mergeSort htrans htotal _
  · intro x
    simp only [globDays, List.mem_map, List.mem_filter]
    constructor
    · rintro ⟨n, ⟨hn, hp⟩, rfl⟩
      exact ⟨n, hn, hp, rfl⟩
    · rintro ⟨n, hn, hp, rfl⟩
      exact ⟨n, ⟨hn, hp⟩, rfl⟩
  · intro d hd
    have hne : ¬d = 0 := by omega
    simp only [selectFileList, pySliceTo]
    rw [if_neg hne, if_pos hd.le]
  · simp [selectFileList]

/-- Witness for C4 with the trivial total comparison at a concrete
directory listing. -/
theorem file_list_selection_witness :
    ((selectFileList "in" "/" ["day_0", "day_1.parquet", "x"]
          (fun _ _ => true) none).Perm
        ((globDays "in" "/" ["day_0", "day_1.parquet", "x"]).filter
          (fun x => !(x.endsWith "parquet"))))
    ∧ List.Pairwise (fun a b => (fun _ _ => true) a b = true)
        (selectFileList "in" "/" ["day_0", "day_1.parquet", "x"]
          (fun _ _ => true) none)
    ∧ (∀ x, x ∈ globDays "in" "/" ["day_0", "day_1.parquet", "x"] ↔
        ∃ n ∈ ["day_0", "day_1.parquet", "x"],
          "day_".isPrefixOf n ∧ x = "in" ++ "/" ++ n)
    ∧ (∀ d : Int, 0 < d →
        selectFileList "in" "/" ["day_0", "day_1.parquet", "x"]
            (fun _ _ => true) (some d)
          = (selectFileList "in" "/" ["day_0", "day_1.parquet", "x"]
              (fun _ _ => true) none).take d.toNat)
    ∧ selectFileList "in" "/" ["day_0", "day_1.parquet", "x"]
          (fun _ _ => true) (some 0)
        = selectFileList "in" "/" ["day_0", "day_1.parquet", "x"]
            (fun _ _ => true) none :=
  file_list_selection "in" "/" ["day_0", "day_1.parquet", "x"] (fun _ _ => true)
    (fun _ _ _ _ _ => rfl) (fun _ _ => rfl)

/-- Joining two parts is plain concatenation around the separator. -/
theorem sepJoin_pair (sep a b : String) : sepJoin sep [a, b] = a ++ sep ++ b := by
  simp [sepJoin, String.intercalate, String.intercalate.go]

/-- Configuration of the nvt.io.GPUFileIterator that _convert_file
constructs: the source path and the keyword arguments exactly as passed.
The chunk stream the iterator yields is external GPU code, abstracted as
a parameter of _convert_file below. -/
structure GPUFileIterator where
  path : String
  engine : String
  names : List String
  gpu_memory_frac : ℚ
  sep : Char
  dts : List (String × Dtype)
deriving DecidableEq

/-- Model of cudf ParquetWriter: the path it was opened on, the
compression argument, the tables written so far in order, and whether
close was called.  Chunk is the abstract type of GPU dataframes. -/
structure ParquetWriter (Chunk : Type) where
  path : String
  compression : Option String
  tables : List Chunk
  closed : Bool
deriving DecidableEq

/-- ParquetWriter(out_path, compression=None) opens a fresh writer. -/
def ParquetWriter.new (Chunk : Type) (path : String)
    (compression : Option String) : ParquetWriter Chunk :=
  ⟨path, compression, [], false⟩

/-- writer.write_table(gdf) appends one table to the open file. -/
def ParquetWriter.write_table {Chunk : Type} (w : ParquetWriter Chunk)
    (t : Chunk) : ParquetWriter Chunk :=
  { w with tables := w.tables ++ [t] }

/-- Metadata returned by ParquetWriter.close: the metadata_file_path it
was asked to record, together with the row groups of the written
tables. -/
structure ParquetMetadata (Chunk : Type) where
  file_path : String
  row_groups : List Chunk
deriving DecidableEq

/-- writer.close(metadata_file_path=fn) closes the file and returns the
metadata. -/
def ParquetWriter.close {Chunk : Type} (w : ParquetWriter Chunk)
    (metadata_file_path : String) : ParquetMetadata Chunk × ParquetWriter Chunk :=
  (⟨metadata_file_path, w.tables⟩, { w with closed := true })

/-- Observable outcome of one _convert_file run: the iterator
configuration used, the final writer state, and the returned metadata. -/
structure ConvertOutcome (Chunk : Type) where
  iter : GPUFileIterator
  writer : ParquetWriter Chunk
  md : ParquetMetadata Chunk
deriving DecidableEq

/-- The task function _convert_file(path, name, out_dir, frac_size, fs,
cols, dtypes): open a ParquetWriter on fs.sep.join([out_dir,
name + ".parquet"]), write every chunk the GPUFileIterator yields over
the tab-separated csv, close with metadata_file_path = name + ".parquet"
and return the metadata.  chunksOf abstracts the external csv reader. -/
def _convert_file {Chunk : Type} (chunksOf : GPUFileIterator → List Chunk)
    (path name out_dir : String) (fracSize : ℚ) (fsSep : String)
    (cs : List String) (dts : List (String × Dtype)) : ConvertOutcome Chunk :=
  let fn := name ++ ".parquet"
  let out_path := sepJoin fsSep [out_dir, name ++ ".parquet"]
  let writer := ParquetWriter.new Chunk out_path none
  let it : GPUFileIterator := ⟨path, "csv", cs, fracSize, '\t', dts⟩
  let writer := (chunksOf it).foldl ParquetWriter.write_table writer
  let res := writer.close fn
  ⟨it, res.2, res.1⟩

/-- Folding write_table appends the chunk list to the written tables and
changes nothing else. -/
theorem foldl_write_table {Chunk : Type} (l : List Chunk) (w : ParquetWriter Chunk) :
    l.foldl ParquetWriter.write_table w =
      ⟨w.path, w.compression, w.tables ++ l, w.closed⟩ := by
  induction l generalizing w with
  | nil => simp
  | cons t ts ih =>
    simp [ParquetWriter.write_table, ih, List.append_assoc]

/-- C2: _convert_file reads its input via a GPUFileIterator configured as
a tab-separated csv read in gpu_memory_frac-bounded chunks, writes every
chunk, in order, to the single Parquet file out_dir + sep +
name + ".parquet", leaves the writer closed, and returns the metadata
recorded under name + ".parquet".  Parquet appears only through the
writer interface modelled here from the cudf library. -/
theorem convert_file_single_parquet {Chunk : Type}
    (chunksOf : GPUFileIterator → List Chunk)
    (path name out_dir : String) (fracSize : ℚ) (fsSep : String)
    (cs : List String) (dts : List (String × Dtype)) :
    ((_convert_file chunksOf path name out_dir fracSize fsSep cs dts).iter =
        ⟨path, "csv", cs, fracSize, '\t', dts⟩)
    ∧ ((_convert_file chunksOf path name out_dir fracSize fsSep cs dts).writer.path =
        out_dir ++ fsSep ++ (name ++ ".parquet"))
    ∧ ((_convert_file chunksOf path name out_dir fracSize fsSep cs dts).writer.tables =
        chunksOf ⟨path, "csv", cs, fracSize, '\t', dts⟩)
    ∧ ((_convert_file chunksOf path name out_dir fracSize fsSep cs dts).writer.closed =
        true)
    ∧ ((_convert_file chunksOf path name out_dir fracSize fsSep cs dts).md =
        ⟨name ++ ".parquet", chunksOf ⟨path, "csv", cs, fracSize, '\t', dts⟩⟩) := by
  refine ⟨rfl, ?_, ?_, ?_, ?_⟩ <;>
    simp [_convert_file, ParquetWriter.new, ParquetWriter.close,
      foldl_write_table, sepJoin_pair]

/-- n_workers = len(CUDA_VISIBLE_DEVICES.split(",")) from Step 2. -/
def n_workers (cudaVisibleDevices : String) : Nat :=
  (cudaVisibleDevices.splitOn ",").length

/-- Step 4: a distributed client is created exactly when more than one
CUDA device is visible and allow_multi_gpu is set. -/
def clientCreated (cudaVisibleDevices : String) (allow_multi_gpu : Bool) : Bool :=
  decide (1 < n_workers cudaVisibleDevices) && allow_multi_gpu

/-- The scheduler a compute() call runs under. -/
inductive Scheduler where
  | distributed
  | synchronous
deriving DecidableEq

/-- Step 6: conversion_delayed.compute(), with scheduler="synchronous"
exactly when no client was created.  The result records the scheduler
used and the key of the Delayed being computed; scheduling itself is the
external dask library. -/
def executeConversion (cudaVisibleDevices : String) (allow_multi_gpu : Bool)
    (tokenize : TokenizeArgs → String) (a : TokenizeArgs) : Scheduler × Key :=
  (if clientCreated cudaVisibleDevices allow_multi_gpu then Scheduler.distributed
   else Scheduler.synchronous,
   (buildGraph tokenize a).1)

/-- C5: a distributed client is created if and only if
CUDA_VISIBLE_DEVICES holds more than one comma-separated entry and
allow_multi_gpu is True; compute() targets the Delayed key of the
hand-built graph; and the synchronous scheduler is used exactly when no
client was created. -/
theorem client_iff_multi_gpu (cvd : String) (allow : Bool)
    (tokenize : TokenizeArgs → String) (a : TokenizeArgs) :
    (clientCreated cvd allow = true ↔
      1 < (cvd.splitOn ",").length ∧ allow = true)
    ∧ ((executeConversion cvd allow tokenize a).1 = Scheduler.synchronous ↔
        clientCreated cvd allow = false)
    ∧ (executeConversion cvd allow tokenize a).2 = (buildGraph tokenize a).1 := by
  refine ⟨?_, ?_, rfl⟩
  · simp [clientCreated, n_workers]
  · by_cases hc : clientCreated cvd allow <;>
      simp [executeConversion, hc]

/-- Kinds of device memory a pool size can be quoted against. -/
inductive MemKind where
  | total
  | free
deriving DecidableEq

/-- An rmm.reinitialize call: the pool_allocator flag and the initial
pool size, recorded symbolically as a fraction of a device memory
quantity. -/
structure RmmConfig where
  pool_allocator : Bool
  initial_pool_size : Option (ℚ × MemKind)
deriving DecidableEq

/-- The _pool helper of the conversion notebook:
rmm.reinitialize(pool_allocator=True, initial_pool_size=frac *
device_mem_size()), with frac defaulting to 0.8 of total device
memory. -/
def _pool (frac : ℚ := 8 / 10) : RmmConfig :=
  ⟨true, some (frac, MemKind.total)⟩

/-- Where an rmm call of the conversion notebook runs. -/
inductive RmmSite where
  | everyWorker
  | driver
deriving DecidableEq

/-- The rmm.reinitialize calls the Step 4 cell performs, with where they
run: with a client (multiple devices and allow_multi_gpu) and
use_rmm_pool set, _pool runs on every worker via client.run; without a
client, _pool runs locally when use_rmm_pool is set; otherwise rmm is
never touched. -/
def conversionRmmCalls (nw : Nat) (allow_multi_gpu use_rmm_pool : Bool) :
    List (RmmSite × RmmConfig) :=
  if 1 < nw ∧ allow_multi_gpu then
    (if use_rmm_pool then [(RmmSite.everyWorker, _pool)] else [])
  else
    (if use_rmm_pool then [(RmmSite.driver, _pool)] else [])

/-- The rmm.reinitialize calls of the training notebook, in order: a pool
of 0.8 of free GPU memory before preprocessing, then a reconfiguration
with pool_allocator=False before the dataloader section. -/
def trainingRmmCalls : List RmmConfig :=
  [⟨true, some (8 / 10, MemKind.free)⟩, ⟨false, none⟩]

/-- C6: rmm is only configured, never implemented: the conversion
notebook initializes the pool (pool_allocator=True, 0.8 of total device
memory, on every worker when a client exists and locally otherwise) if
and only if use_rmm_pool is True, and the training notebook configures a
pool of 0.8 of free GPU memory and later reconfigures with
pool_allocator=False. -/
theorem rmm_configuration (nw : Nat) (allow use_pool : Bool) :
    (conversionRmmCalls nw allow use_pool ≠ [] ↔ use_pool = true)
    ∧ (use_pool = true →
        conversionRmmCalls nw allow use_pool =
          [((if 1 < nw ∧ allow = true then RmmSite.everyWorker else RmmSite.driver),
            ⟨true, some (8 / 10, MemKind.total)⟩)])
    ∧ (∀ sc ∈ conversionRmmCalls nw allow use_pool, sc.2 = _pool)
    ∧ trainingRmmCalls =
        [⟨true, some (8 / 10, MemKind.free)⟩, ⟨false, none⟩] := by
  refine ⟨?_, ?_, ?_, rfl⟩
  · by_cases hm : 1 < nw ∧ allow = true <;>
      cases use_pool <;> simp [conversionRmmCalls, hm]
  · intro hu
    by_cases hm : 1 < nw ∧ allow = true <;>
      simp [conversionRmmCalls, hm, hu, _pool]
  · intro sc hsc
    by_cases hm : 1 < nw ∧ allow = true <;>
      cases use_pool <;>
        simp [conversionRmmCalls, hm] at hsc <;> simp [hsc]

/-- Witness for C6 on a two-worker multi-GPU pool-enabled run. -/
theorem rmm_configuration_witness :
    (conversionRmmCalls 2 true true ≠ [] ↔ (true : Bool) = true)
    ∧ ((true : Bool) = true →
        conversionRmmCalls 2 true true =
          [((if 1 < 2 ∧ (true : Bool) = true then RmmSite.everyWorker
             else RmmSite.driver),
            ⟨true, some (8 / 10, MemKind.total)⟩)])
    ∧ (∀ sc ∈ conversionRmmCalls 2 true true, sc.2 = _pool)
    ∧ trainingRmmCalls =
        [⟨true, some (8 / 10, MemKind.free)⟩, ⟨false, none⟩] :=
  rmm_configuration 2 true true

/-- Observable outcome of one _write_metadata run: the returned value,
the file written (its path and content) when one is written, and whether
the cudf metadata merge was invoked. -/
structure WriteMetadataOutcome (Md : Type) where
  ret : Bool
  written : Option (String × Md)
  mergeInvoked : Bool
deriving DecidableEq

/-- The task function _write_metadata(md_list, fs, path): when md_list is
non-empty, write to fs.sep.join([path, "_metadata"]) the merged metadata
when there are at least two entries and the single entry itself
otherwise; always return True.  merge abstracts
cudf.io.merge_parquet_filemetadata. -/
def _write_metadata {Md : Type} (merge : List Md → Md) (md_list : List Md)
    (fsSep path : String) : WriteMetadataOutcome Md :=
  match md_list with
  | [] => ⟨true, none, false⟩
  | [m] => ⟨true, some (sepJoin fsSep [path, "_metadata"], m), false⟩
  | m :: ms => ⟨true, some (sepJoin fsSep [path, "_metadata"], merge (m :: ms)), true⟩

/-- C7: _write_metadata returns True on every input; it writes the
_metadata file under the output path if and only if md_list is non-empty;
an empty md_list writes nothing; and a singleton md_list is written
directly without invoking the metadata merge. -/
theorem write_metadata_spec {Md : Type} (merge : List Md → Md)
    (md_list : List Md) (fsSep path : String) :
    ((_write_metadata merge md_list fsSep path).ret = true)
    ∧ ((_write_metadata merge md_list fsSep path).written = none ↔ md_list = [])
    ∧ (∀ m, md_list = [m] →
        (_write_metadata merge md_list fsSep path).written =
            some (path ++ fsSep ++ "_metadata", m)
          ∧ (_write_metadata merge md_list fsSep path).mergeInvoked = false)
    ∧ (1 < md_list.length →
        (_write_metadata merge md_list fsSep path).written =
            some (path ++ fsSep ++ "_metadata", merge md_list)
          ∧ (_write_metadata merge md_list fsSep path).mergeInvoked = true) := by
  match md_list with
  | [] => simp [_write_metadata]
  | [m] => simp [_write_metadata, sepJoin_pair]
  | m :: m' :: ms => simp [_write_metadata, sepJoin_pair]

/-- Witness for C7 on a two-element metadata list over Nat. -/
theorem write_metadata_spec_witness :
    ((_write_metadata (fun l => l.sum) [3, 4] "/" "out").ret = true)
    ∧ ((_write_metadata (fun l => l.sum) [3, 4] "/" "out").written = none ↔
        ([3, 4] : List Nat) = [])
    ∧ (∀ m, ([3, 4] : List Nat) = [m] →
        (_write_metadata (fun l => l.sum) [3, 4] "/" "out").written =
            some ("out" ++ "/" ++ "_metadata", m)
          ∧ (_write_metadata (fun l => l.sum) [3, 4] "/" "out").mergeInvoked = false)
    ∧ (1 < ([3, 4] : List Nat).length →
        (_write_metadata (fun l => l.sum) [3, 4] "/" "out").written =
            some ("out" ++ "/" ++ "_metadata", ([3, 4] : List Nat).sum)
          ∧ (_write_metadata (fun l => l.sum) [3, 4] "/" "out").mergeInvoked = true) :=
  write_metadata_spec (fun l => l.sum) [3, 4] "/" "out"

/-- Inventory of the repository sources: each notebook with its raw line
count, JSON and markdown cell wrapping included. -/
def repoNotebooks : List (String × Nat) :=
  [("optimize_criteo.ipynb", 229), ("examples/criteo-example.ipynb", 376)]

/-- C9: the repository source is exactly two notebooks totaling 605 raw
lines, within ten percent of the approximately 600 the spec states. -/
theorem repo_two_notebooks :
    repoNotebooks.length = 2
    ∧ (repoNotebooks.map Prod.snd).sum = 605
    ∧ 540 ≤ (repoNotebooks.map Prod.snd).sum
    ∧ (repoNotebooks.map Prod.snd).sum ≤ 660 := by
  decide

end NVT
